import Mathlib

/-!
Shallow embedding of the pysaunum sauna-controller client
(`src/pysaunum/client.py`, `const.py`, `models.py`, `exceptions.py`).

Registers are unsigned 16-bit Modbus words, modelled as `Nat`.
Python exceptions become an error inductive carried in `Except`.
The async transport is modelled by explicit arguments: a `connected`
flag and the raw results the transport would return for each read,
and an outcome code for a write.
-/

namespace Pysaunum

/-! ### Constants (const.py) -/

def MIN_TEMPERATURE : Int := 40

def MAX_TEMPERATURE : Int := 100

def REG_SESSION_ACTIVE : Nat := 0

def REG_TARGET_TEMPERATURE : Nat := 4

def REG_CURRENT_TEMP : Nat := 100

/-- Modelled from the spec: `const.py` under src/ is missing the control-block
register addresses beyond `REG_SESSION_ACTIVE` and `REG_TARGET_TEMPERATURE`
that `client.py` imports; the spec register table (§6) gives
Control base 0 with offset 1 = saunaType. -/
def REG_SAUNA_TYPE : Nat := 1

/-- Modelled from the spec: Control offset 2 = saunaDuration (§6). -/
def REG_SAUNA_DURATION : Nat := 2

/-- Modelled from the spec: Control offset 3 = fanDuration (§6). -/
def REG_FAN_DURATION : Nat := 3

/-- Modelled from the spec: Control offset 5 = fanSpeed (§6). -/
def REG_FAN_SPEED : Nat := 5

/-- Modelled from the spec: Control offset 6 = lightOn (§6). -/
def REG_LIGHT_CONTROL : Nat := 6

/-- Modelled from the spec: Alarms block base 200 (§6). -/
def REG_ALARM_DOOR_OPEN : Nat := 200

/-- Modelled from the spec: `const.py` under src/ is missing the duration
bounds imported by `client.py`; §4.3 accepts saunaDuration in [0,720]. -/
def MIN_DURATION : Int := 0

/-- Modelled from the spec: §4.3 accepts saunaDuration in [0,720]. -/
def MAX_DURATION : Int := 720

/-- Modelled from the spec: §4.3 accepts fanDuration in [0,30]. -/
def MIN_FAN_DURATION : Int := 0

/-- Modelled from the spec: §4.3 accepts fanDuration in [0,30]. -/
def MAX_FAN_DURATION : Int := 30

/-- Modelled from the spec: light write values; §6 lightOn is a boolean
register, on = 1. -/
def STATUS_ON : Int := 1

/-- Modelled from the spec: light off value = 0. -/
def STATUS_OFF : Int := 0

/-- Modelled from the spec: `const.py` under src/ is missing the `SaunaType`
enum imported by `client.py` and `models.py`; §3 and the
`async_set_sauna_type` docstring give the three codes 0, 1, 2. -/
inductive SaunaType where
  | TYPE_1
  | TYPE_2
  | TYPE_3
deriving DecidableEq, Repr

/-- Membership test `raw in SaunaType` together with the `SaunaType(raw)`
conversion: `some` exactly on the three known codes. -/
def SaunaType.ofNat? : Nat → Option SaunaType
  | 0 => some .TYPE_1
  | 1 => some .TYPE_2
  | 2 => some .TYPE_3
  | _ => none

/-- Modelled from the spec: `const.py` under src/ is missing the `FanSpeed`
enum imported by `client.py` and `models.py`; §3 and the
`async_set_fan_speed` docstring give codes 0=Off, 1=Low, 2=Medium, 3=High. -/
inductive FanSpeed where
  | OFF
  | LOW
  | MEDIUM
  | HIGH
deriving DecidableEq, Repr

/-- Membership test `raw in FanSpeed` together with the `FanSpeed(raw)`
conversion: `some` exactly on codes 0-3. -/
def FanSpeed.ofNat? : Nat → Option FanSpeed
  | 0 => some .OFF
  | 1 => some .LOW
  | 2 => some .MEDIUM
  | 3 => some .HIGH
  | _ => none

/-! ### Errors (exceptions.py, plus Python ValueError) -/

inductive SaunumError where
  | connectionError
  | communicationError
  | timeoutError
  | invalidDataError
  | valueError
deriving DecidableEq, Repr

/-! ### Data model (models.py: SaunumData) -/

structure SaunumData where
  session_active : Bool
  sauna_type : SaunaType ⊕ Nat
  sauna_duration : Nat
  fan_duration : Nat
  target_temperature : Nat
  fan_speed : Option FanSpeed
  light_on : Bool
  current_temperature : Int
  on_time : Nat
  heater_elements_active : Nat
  door_open : Bool
  alarm_door_open : Bool
  alarm_door_sensor : Bool
  alarm_thermal_cutoff : Bool
  alarm_internal_temp : Bool
  alarm_temp_sensor_short : Bool
  alarm_temp_sensor_open : Bool
deriving DecidableEq, Repr

/-! ### Transport model -/

/-- Result object returned by the transport for a block read
(pymodbus response: an error flag and, when present, a register list). -/
structure ReadResult where
  isError : Bool
  registers : Option (List Nat)
deriving DecidableEq, Repr

/-- Outcome the transport produces for a single-register write. -/
inductive WriteResult where
  | ok
  | errorResponse
  | timeout
  | modbusError
deriving DecidableEq, Repr

/-! ### Value codec (client.py lines 47-53, 275-276) -/

def decode_int16 (value : Nat) : Int :=
  if value ≥ 0x8000 then (value : Int) - 0x10000 else (value : Int)

/-- 32-bit on-time composition, inline at client.py line 276:
`(status_regs[1] <<< 16) ||| status_regs[2]`. -/
def decode_composite32 (high low : Nat) : Nat :=
  (high <<< 16) ||| low

/-! ### Register-response validation (client.py `_validate_registers`) -/

def validate_registers (result : ReadResult) (expected_count : Nat) :
    Except SaunumError (List Nat) :=
  if result.isError then
    .error .communicationError
  else
    match result.registers with
    | none => .error .invalidDataError
    | some regs =>
      if regs.length < expected_count then .error .invalidDataError
      else .ok regs

/-- Python list indexing `regs[i]`: an out-of-range index raises IndexError,
which `async_get_data` catches and re-raises as SaunumInvalidDataError
(client.py line 329). -/
def pyGet (l : List Nat) (i : Nat) : Except SaunumError Nat :=
  if h : i < l.length then .ok l[i] else .error .invalidDataError

/-! ### Full-state read (client.py `async_get_data`) -/

def async_get_data (connected : Bool)
    (control_result status_result alarm_result : ReadResult) :
    Except SaunumError SaunumData :=
  if !connected then .error .connectionError
  else do
    let control_regs ← validate_registers control_result 7
    let status_regs ← validate_registers status_result 5
    let alarm_regs ← validate_registers alarm_result 6
    let c0 ← pyGet control_regs 0
    let c1 ← pyGet control_regs 1
    let c2 ← pyGet control_regs 2
    let c3 ← pyGet control_regs 3
    let c4 ← pyGet control_regs 4
    let c5 ← pyGet control_regs 5
    let c6 ← pyGet control_regs 6
    let s0 ← pyGet status_regs 0
    let s1 ← pyGet status_regs 1
    let s2 ← pyGet status_regs 2
    let s3 ← pyGet status_regs 3
    let s4 ← pyGet status_regs 4
    let a0 ← pyGet alarm_regs 0
    let a1 ← pyGet alarm_regs 1
    let a2 ← pyGet alarm_regs 2
    let a3 ← pyGet alarm_regs 3
    let a4 ← pyGet alarm_regs 4
    let a5 ← pyGet alarm_regs 5
    -- A target temperature above MAX_TEMPERATURE only logs a warning
    -- (client.py lines 254-259); the raw value is kept unchanged.
    pure {
      session_active := c0 != 0
      sauna_type :=
        match SaunaType.ofNat? c1 with
        | some t => Sum.inl t
        | none => Sum.inr c1
      sauna_duration := c2
      fan_duration := c3
      target_temperature := c4
      fan_speed := FanSpeed.ofNat? c5
      light_on := c6 != 0
      current_temperature := decode_int16 s0
      on_time := decode_composite32 s1 s2
      heater_elements_active := s3
      door_open := s4 != 0
      alarm_door_open := a0 != 0
      alarm_door_sensor := a1 != 0
      alarm_thermal_cutoff := a2 != 0
      alarm_internal_temp := a3 != 0
      alarm_temp_sensor_short := a4 != 0
      alarm_temp_sensor_open := a5 != 0
    }

/-! ### Single-register write (client.py `_async_write_register`) -/

/-- Outcome of a write operation: the result (or raised error) together with
whether the transport's `write_register` was ever invoked. -/
structure WriteOutcome where
  result : Except SaunumError Unit
  transport_write_invoked : Bool
deriving Repr

/-- `_async_write_register`: checks the connection first (raising
SaunumConnectionError without touching the transport), then issues the
write and classifies the transport outcome. The `address` and `value`
arguments do not influence classification, mirroring the code. -/
def async_write_register (address : Nat) (value : Int)
    (connected : Bool) (w : WriteResult) : WriteOutcome :=
  if !connected then
    { result := .error .connectionError, transport_write_invoked := false }
  else
    { result :=
        match w with
        | .ok => .ok ()
        | .errorResponse => .error .communicationError
        | .timeout => .error .timeoutError
        | .modbusError => .error .communicationError
      transport_write_invoked := true }

def async_start_session (connected : Bool) (w : WriteResult) : WriteOutcome :=
  async_write_register REG_SESSION_ACTIVE 1 connected w

def async_stop_session (connected : Bool) (w : WriteResult) : WriteOutcome :=
  async_write_register REG_SESSION_ACTIVE 0 connected w

def async_set_target_temperature (connected : Bool) (w : WriteResult)
    (temperature : Int) : WriteOutcome :=
  if temperature < 0 ∨
      (temperature ≠ 0 ∧
        ¬(MIN_TEMPERATURE ≤ temperature ∧ temperature ≤ MAX_TEMPERATURE)) then
    { result := .error .valueError, transport_write_invoked := false }
  else
    async_write_register REG_TARGET_TEMPERATURE temperature connected w

def async_set_sauna_duration (connected : Bool) (w : WriteResult)
    (minutes : Int) : WriteOutcome :=
  if ¬(MIN_DURATION ≤ minutes ∧ minutes ≤ MAX_DURATION) then
    { result := .error .valueError, transport_write_invoked := false }
  else
    async_write_register REG_SAUNA_DURATION minutes connected w

def async_set_fan_duration (connected : Bool) (w : WriteResult)
    (minutes : Int) : WriteOutcome :=
  if ¬(MIN_FAN_DURATION ≤ minutes ∧ minutes ≤ MAX_FAN_DURATION) then
    { result := .error .valueError, transport_write_invoked := false }
  else
    async_write_register REG_FAN_DURATION minutes connected w

/-- `speed not in FanSpeed` is the membership test against codes 0-3. -/
def async_set_fan_speed (connected : Bool) (w : WriteResult)
    (speed : Int) : WriteOutcome :=
  if ¬(speed = 0 ∨ speed = 1 ∨ speed = 2 ∨ speed = 3) then
    { result := .error .valueError, transport_write_invoked := false }
  else
    async_write_register REG_FAN_SPEED speed connected w

/-- `sauna_type not in SaunaType` is the membership test against codes 0-2. -/
def async_set_sauna_type (connected : Bool) (w : WriteResult)
    (sauna_type : Int) : WriteOutcome :=
  if ¬(sauna_type = 0 ∨ sauna_type = 1 ∨ sauna_type = 2) then
    { result := .error .valueError, transport_write_invoked := false }
  else
    async_write_register REG_SAUNA_TYPE sauna_type connected w

def async_set_light_control (connected : Bool) (w : WriteResult)
    (enabled : Bool) : WriteOutcome :=
  async_write_register REG_LIGHT_CONTROL
    (if enabled then STATUS_ON else STATUS_OFF) connected w

/-! ### Close (client.py `async_close`) -/

/-- Session state as seen by `async_close`: the transport's connected flag
and how many times the transport-level `close()` has been performed. -/
structure CloseState where
  connected : Bool
  transport_close_count : Nat
deriving DecidableEq, Repr

/-- `async_close`: a no-op when already disconnected; otherwise performs the
transport close once (after which the transport reports disconnected).
No raise path exists in the function body. -/
def async_close (s : CloseState) : CloseState :=
  if !s.connected then s
  else { connected := false, transport_close_count := s.transport_close_count + 1 }

/-! ### Helper lemmas -/

theorem saunaType_ofNat_unknown {n : Nat} (h : 3 ≤ n) :
    SaunaType.ofNat? n = none := by
  match n, h with
  | (k + 3), _ => rfl

theorem fanSpeed_ofNat_unknown {n : Nat} (h : 4 ≤ n) :
    FanSpeed.ofNat? n = none := by
  match n, h with
  | (k + 4), _ => rfl

theorem pyGet_eq_ok {l : List Nat} {i : Nat} (h : i < l.length) :
    pyGet l i = .ok (l.getD i 0) := by
  simp [pyGet, h, List.getD_eq_getElem?_getD, List.getElem?_eq_getElem h]

theorem validate_registers_ok {regs : List Nat} {n : Nat}
    (h : n ≤ regs.length) :
    validate_registers ⟨false, some regs⟩ n = .ok regs := by
  simp [validate_registers]
  omega

/-- On complete (or over-long) blocks, `async_get_data` reduces to the
snapshot decoded from the leading words of each block. -/
theorem async_get_data_ok (c s a : List Nat)
    (hc : 7 ≤ c.length) (hs : 5 ≤ s.length) (ha : 6 ≤ a.length) :
    async_get_data true ⟨false, some c⟩ ⟨false, some s⟩ ⟨false, some a⟩ =
      .ok { session_active := c.getD 0 0 != 0
            sauna_type :=
              match SaunaType.ofNat? (c.getD 1 0) with
              | some t => Sum.inl t
              | none => Sum.inr (c.getD 1 0)
            sauna_duration := c.getD 2 0
            fan_duration := c.getD 3 0
            target_temperature := c.getD 4 0
            fan_speed := FanSpeed.ofNat? (c.getD 5 0)
            light_on := c.getD 6 0 != 0
            current_temperature := decode_int16 (s.getD 0 0)
            on_time := decode_composite32 (s.getD 1 0) (s.getD 2 0)
            heater_elements_active := s.getD 3 0
            door_open := s.getD 4 0 != 0
            alarm_door_open := a.getD 0 0 != 0
            alarm_door_sensor := a.getD 1 0 != 0
            alarm_thermal_cutoff := a.getD 2 0 != 0
            alarm_internal_temp := a.getD 3 0 != 0
            alarm_temp_sensor_short := a.getD 4 0 != 0
            alarm_temp_sensor_open := a.getD 5 0 != 0 } := by
  simp [async_get_data,
    validate_registers_ok hc, validate_registers_ok hs, validate_registers_ok ha,
    pyGet_eq_ok (show 0 < c.length by omega),
    pyGet_eq_ok (show 1 < c.length by omega),
    pyGet_eq_ok (show 2 < c.length by omega),
    pyGet_eq_ok (show 3 < c.length by omega),
    pyGet_eq_ok (show 4 < c.length by omega),
    pyGet_eq_ok (show 5 < c.length by omega),
    pyGet_eq_ok (show 6 < c.length by omega),
    pyGet_eq_ok (show 0 < s.length by omega),
    pyGet_eq_ok (show 1 < s.length by omega),
    pyGet_eq_ok (show 2 < s.length by omega),
    pyGet_eq_ok (show 3 < s.length by omega),
    pyGet_eq_ok (show 4 < s.length by omega),
    pyGet_eq_ok (show 0 < a.length by omega),
    pyGet_eq_ok (show 1 < a.length by omega),
    pyGet_eq_ok (show 2 < a.length by omega),
    pyGet_eq_ok (show 3 < a.length by omega),
    pyGet_eq_ok (show 4 < a.length by omega),
    pyGet_eq_ok (show 5 < a.length by omega),
    Bind.bind, Except.bind, pure, Except.pure]

/-! ### Claim theorems -/

/-- C1: a full-state read with Control=[1,0,60,10,80,2,1], Status=[75,0,0,1,0],
Alarms=[0,0,0,0,0,0] produces a snapshot with session_active=true,
sauna_type=Type1, sauna_duration=60, fan_duration=10, target_temperature=80,
fan_speed=Medium, light_on=true, current_temperature=75, on_time=0,
heater_elements_active=1, door_open=false, and all six alarm flags false. -/
theorem c1_full_state_read_example :
    async_get_data true
      ⟨false, some [1, 0, 60, 10, 80, 2, 1]⟩
      ⟨false, some [75, 0, 0, 1, 0]⟩
      ⟨false, some [0, 0, 0, 0, 0, 0]⟩ =
    .ok { session_active := true
          sauna_type := Sum.inl SaunaType.TYPE_1
          sauna_duration := 60
          fan_duration := 10
          target_temperature := 80
          fan_speed := some FanSpeed.MEDIUM
          light_on := true
          current_temperature := 75
          on_time := 0
          heater_elements_active := 1
          door_open := false
          alarm_door_open := false
          alarm_door_sensor := false
          alarm_thermal_cutoff := false
          alarm_internal_temp := false
          alarm_temp_sensor_short := false
          alarm_temp_sensor_open := false } := by
  rfl

/-- C2: the signed-word decoder is the two's-complement reading of a 16-bit
word: identity below 0x8000 and subtraction of 65536 at or above it, with
0xFFFF ↦ -1, 0x8000 ↦ -32768, 0x7FFF ↦ 32767. -/
theorem c2_decode_int16_twos_complement :
    ∀ w : Nat, w < 2 ^ 16 →
      ((w < 0x8000 → decode_int16 w = w) ∧
        (0x8000 ≤ w → decode_int16 w = (w : Int) - 65536)) ∧
      decode_int16 0xFFFF = -1 ∧
      decode_int16 0x8000 = -32768 ∧
      decode_int16 0x7FFF = 32767 := by
  intro w hw
  refine ⟨⟨?_, ?_⟩, by decide, by decide, by decide⟩ <;>
    intro h <;> unfold decode_int16 <;> split <;> omega

theorem c2_witness :
    decode_int16 123 = ((123 : Nat) : Int) ∧ decode_int16 0xFFFF = -1 :=
  ⟨(c2_decode_int16_twos_complement 123 (by decide)).1.1 (by decide),
   (c2_decode_int16_twos_complement 0xFFFF (by decide)).2.1⟩

theorem decode_composite32_eq_mul_add (high low : Nat) (hl : low < 2 ^ 16) :
    decode_composite32 high low = high * 2 ^ 16 + low := by
  unfold decode_composite32
  rw [Nat.shiftLeft_eq, Nat.mul_comm high (2 ^ 16), ← Nat.mul_add_lt_is_or hl high]

/-- C3: composing two 16-bit words as (high <<< 16) ||| low and splitting the
result back into its high and low 16-bit halves returns the original pair;
in particular high=1, low=0 composes to 65536. -/
theorem c3_composite32_round_trip :
    ∀ high low : Nat, high < 2 ^ 16 → low < 2 ^ 16 →
      ((decode_composite32 high low) >>> 16 = high ∧
        (decode_composite32 high low) % 2 ^ 16 = low) ∧
      decode_composite32 1 0 = 65536 := by
  intro high low hh hl
  have e := decode_composite32_eq_mul_add high low hl
  have p : (2 : Nat) ^ 16 = 65536 := by norm_num
  rw [p] at e hl
  refine ⟨⟨?_, ?_⟩, by decide⟩
  · rw [e, Nat.shiftRight_eq_div_pow, p]
    omega
  · rw [e, p]
    omega

theorem c3_witness :
    (decode_composite32 3 7) >>> 16 = 3 ∧ (decode_composite32 3 7) % 2 ^ 16 = 7 :=
  (c3_composite32_round_trip 3 7 (by decide) (by decide)).1

theorem async_write_register_disconnected (address : Nat) (value : Int)
    (w : WriteResult) :
    async_write_register address value false w =
      { result := .error .connectionError, transport_write_invoked := false } := rfl

/-- C4: the target-temperature setter rejects with a local validation error
exactly when the value is outside {0} ∪ [40,100], and a rejected value never
reaches the transport, regardless of connection state. -/
theorem c4_set_target_temperature_validation :
    ∀ (connected : Bool) (w : WriteResult) (t : Int),
      ((async_set_target_temperature connected w t).result = .error .valueError ↔
        ¬(t = 0 ∨ (40 ≤ t ∧ t ≤ 100))) ∧
      (¬(t = 0 ∨ (40 ≤ t ∧ t ≤ 100)) →
        (async_set_target_temperature connected w t).transport_write_invoked = false) := by
  intro connected w t
  unfold async_set_target_temperature async_write_register
    MIN_TEMPERATURE MAX_TEMPERATURE
  split_ifs with h1 h2 <;> cases w <;> simp <;> omega

theorem c4_witness :
    (async_set_target_temperature true .ok (-1)).result = .error .valueError ∧
    (async_set_target_temperature true .ok (-1)).transport_write_invoked = false :=
  ⟨(c4_set_target_temperature_validation true .ok (-1)).1.mpr (by decide),
   (c4_set_target_temperature_validation true .ok (-1)).2 (by decide)⟩

/-- C5: during a full-state read, a transport response carrying fewer words
than the block's declared count (7 control, 5 status, 6 alarm) makes the
whole read fail with InvalidDataError; no snapshot is produced. -/
theorem c5_short_block_read_invalid_data :
    ∀ c s a : List Nat,
      (c.length < 7 →
        async_get_data true ⟨false, some c⟩ ⟨false, some s⟩ ⟨false, some a⟩ =
          .error .invalidDataError) ∧
      (7 ≤ c.length → s.length < 5 →
        async_get_data true ⟨false, some c⟩ ⟨false, some s⟩ ⟨false, some a⟩ =
          .error .invalidDataError) ∧
      (7 ≤ c.length → 5 ≤ s.length → a.length < 6 →
        async_get_data true ⟨false, some c⟩ ⟨false, some s⟩ ⟨false, some a⟩ =
          .error .invalidDataError) := by
  intro c s a
  refine ⟨?_, ?_, ?_⟩
  · intro h
    simp [async_get_data, validate_registers, h, Bind.bind, Except.bind]
  · intro h1 h2
    have hc : ¬c.length < 7 := by omega
    simp [async_get_data, validate_registers, hc, h2, Bind.bind, Except.bind]
  · intro h1 h2 h3
    have hc : ¬c.length < 7 := by omega
    have hs : ¬s.length < 5 := by omega
    simp [async_get_data, validate_registers, hc, hs, h3, Bind.bind, Except.bind]

theorem c5_witness :
    async_get_data true ⟨false, some [1, 2, 3]⟩ ⟨false, some []⟩
      ⟨false, some []⟩ = .error .invalidDataError :=
  (c5_short_block_read_invalid_data [1, 2, 3] [] []).1 (by decide)

/-- C6: every write operation invoked while disconnected fails with
ConnectionError (for any argument its own validator accepts) and never
invokes the transport write; for validated setters, the transport write is
not invoked for any argument at all. -/
theorem c6_writes_disconnected :
    ∀ (w : WriteResult) (t d fd sp ty : Int) (en : Bool),
      ((async_start_session false w).result = .error .connectionError ∧
        (async_start_session false w).transport_write_invoked = false) ∧
      ((async_stop_session false w).result = .error .connectionError ∧
        (async_stop_session false w).transport_write_invoked = false) ∧
      ((async_set_light_control false w en).result = .error .connectionError ∧
        (async_set_light_control false w en).transport_write_invoked = false) ∧
      ((async_set_target_temperature false w t).transport_write_invoked = false ∧
        ((t = 0 ∨ (40 ≤ t ∧ t ≤ 100)) →
          (async_set_target_temperature false w t).result = .error .connectionError)) ∧
      ((async_set_sauna_duration false w d).transport_write_invoked = false ∧
        ((0 ≤ d ∧ d ≤ 720) →
          (async_set_sauna_duration false w d).result = .error .connectionError)) ∧
      ((async_set_fan_duration false w fd).transport_write_invoked = false ∧
        ((0 ≤ fd ∧ fd ≤ 30) →
          (async_set_fan_duration false w fd).result = .error .connectionError)) ∧
      ((async_set_fan_speed false w sp).transport_write_invoked = false ∧
        ((sp = 0 ∨ sp = 1 ∨ sp = 2 ∨ sp = 3) →
          (async_set_fan_speed false w sp).result = .error .connectionError)) ∧
      ((async_set_sauna_type false w ty).transport_write_invoked = false ∧
        ((ty = 0 ∨ ty = 1 ∨ ty = 2) →
          (async_set_sauna_type false w ty).result = .error .connectionError)) := by
  intro w t d fd sp ty en
  unfold async_set_target_temperature async_set_sauna_duration
    async_set_fan_duration async_set_fan_speed async_set_sauna_type
    MIN_TEMPERATURE MAX_TEMPERATURE MIN_DURATION MAX_DURATION
    MIN_FAN_DURATION MAX_FAN_DURATION
  refine ⟨⟨rfl, rfl⟩, ⟨rfl, rfl⟩, ⟨rfl, rfl⟩, ?_, ?_, ?_, ?_, ?_⟩ <;>
    refine ⟨by split_ifs <;> simp [async_write_register_disconnected], fun hv => ?_⟩ <;>
    split_ifs with h <;>
    first
      | (exfalso; omega)
      | simp [async_write_register_disconnected]

theorem c6_witness :
    (async_start_session false .ok).result = .error .connectionError ∧
    (async_set_target_temperature false .ok 80).result = .error .connectionError ∧
    (async_set_target_temperature false .ok 80).transport_write_invoked = false :=
  ⟨(c6_writes_disconnected .ok 80 0 0 0 0 true).1.1,
   (c6_writes_disconnected .ok 80 0 0 0 0 true).2.2.2.1.2 (by decide),
   (c6_writes_disconnected .ok 80 0 0 0 0 true).2.2.2.1.1⟩

/-- C7: any three complete blocks (7, 5, 6 words, arbitrary content) decode
to a snapshot without raising; an unrecognized sauna-type code is surfaced
as the raw integer and a fan-speed code outside 0-3 becomes `none`. -/
theorem c7_complete_blocks_always_snapshot :
    ∀ c s a : List Nat, c.length = 7 → s.length = 5 → a.length = 6 →
      ∃ d, async_get_data true ⟨false, some c⟩ ⟨false, some s⟩ ⟨false, some a⟩ =
          .ok d ∧
        (3 ≤ c.getD 1 0 → d.sauna_type = Sum.inr (c.getD 1 0)) ∧
        (4 ≤ c.getD 5 0 → d.fan_speed = none) := by
  intro c s a hc hs ha
  refine ⟨_, async_get_data_ok c s a (by omega) (by omega) (by omega), ?_, ?_⟩
  · intro h
    rw [List.getD_eq_getElem?_getD] at h
    simp [saunaType_ofNat_unknown h]
  · intro h
    rw [List.getD_eq_getElem?_getD] at h
    simp [fanSpeed_ofNat_unknown h]

theorem c7_witness :
    ∃ d, async_get_data true ⟨false, some [1, 99, 60, 10, 80, 9, 1]⟩
        ⟨false, some [75, 0, 0, 1, 0]⟩ ⟨false, some [0, 0, 0, 0, 0, 0]⟩ =
        .ok d ∧
      d.sauna_type = Sum.inr 99 ∧ d.fan_speed = none := by
  obtain ⟨d, h1, h2, h3⟩ :=
    c7_complete_blocks_always_snapshot [1, 99, 60, 10, 80, 9, 1]
      [75, 0, 0, 1, 0] [0, 0, 0, 0, 0, 0] rfl rfl rfl
  exact ⟨d, h1, h2 (by decide), h3 (by decide)⟩

/-- C8 counterexample: a successful full-state read does NOT keep the target
temperature inside {0} ∪ [40,100] — the raw word 150 survives into the
snapshot (client.py only logs a warning for values above the maximum). -/
theorem c8_counterexample :
    async_get_data true ⟨false, some [1, 0, 60, 10, 150, 2, 1]⟩
      ⟨false, some [75, 0, 0, 1, 0]⟩ ⟨false, some [0, 0, 0, 0, 0, 0]⟩ =
      .ok { session_active := true
            sauna_type := Sum.inl SaunaType.TYPE_1
            sauna_duration := 60
            fan_duration := 10
            target_temperature := 150
            fan_speed := some FanSpeed.MEDIUM
            light_on := true
            current_temperature := 75
            on_time := 0
            heater_elements_active := 1
            door_open := false
            alarm_door_open := false
            alarm_door_sensor := false
            alarm_thermal_cutoff := false
            alarm_internal_temp := false
            alarm_temp_sensor_short := false
            alarm_temp_sensor_open := false } ∧
    ¬((150 : Nat) = 0 ∨ (40 ≤ (150 : Nat) ∧ (150 : Nat) ≤ 100)) :=
  ⟨rfl, by decide⟩

/-- C8 (amended): in every snapshot produced by a successful full-state read,
the target-temperature field is the raw control word at offset 4, passed
through unconstrained (out-of-range values are kept, with only a warning
logged above 100). -/
theorem c8_amended_target_passthrough :
    ∀ c s a : List Nat, 7 ≤ c.length → 5 ≤ s.length → 6 ≤ a.length →
      ∃ d, async_get_data true ⟨false, some c⟩ ⟨false, some s⟩ ⟨false, some a⟩ =
          .ok d ∧
        d.target_temperature = c.getD 4 0 := by
  intro c s a hc hs ha
  exact ⟨_, async_get_data_ok c s a hc hs ha, rfl⟩

theorem c8_witness :
    ∃ d, async_get_data true ⟨false, some [1, 0, 60, 10, 150, 2, 1]⟩
        ⟨false, some [75, 0, 0, 1, 0]⟩ ⟨false, some [0, 0, 0, 0, 0, 0]⟩ =
        .ok d ∧
      d.target_temperature = 150 := by
  obtain ⟨d, h1, h2⟩ :=
    c8_amended_target_passthrough [1, 0, 60, 10, 150, 2, 1]
      [75, 0, 0, 1, 0] [0, 0, 0, 0, 0, 0] (by decide) (by decide) (by decide)
  exact ⟨d, h1, h2⟩

/-- C9: closing twice performs the underlying transport close at most once
(the second close is a no-op), and closing an already-disconnected session
leaves the state untouched; `async_close` is a total function with no raise
path. -/
theorem c9_close_idempotent :
    ∀ st : CloseState,
      (async_close (async_close st)).transport_close_count ≤
        st.transport_close_count + 1 ∧
      async_close (async_close st) = async_close st ∧
      (st.connected = false → async_close st = st) := by
  intro st
  rcases st with ⟨c, n⟩
  cases c <;> simp [async_close]

theorem c9_witness :
    (async_close (async_close ⟨true, 0⟩)).transport_close_count ≤ 1 ∧
    async_close ⟨false, 5⟩ = ⟨false, 5⟩ :=
  ⟨(c9_close_idempotent ⟨true, 0⟩).1, (c9_close_idempotent ⟨false, 5⟩).2.2 rfl⟩

theorem getD_take_eq {l : List Nat} {n i : Nat} (h : i < n) :
    (l.take n).getD i 0 = l.getD i 0 := by
  simp [List.getD_eq_getElem?_getD, List.getElem?_take_of_lt h]

/-- C10: completeness validation only requires at least the declared count,
so an over-long block read passes validation unchanged and the snapshot is
decoded from the leading declared-count words of each block. -/
theorem c10_overlong_blocks_tolerated :
    ∀ c s a : List Nat, 7 ≤ c.length → 5 ≤ s.length → 6 ≤ a.length →
      validate_registers ⟨false, some c⟩ 7 = .ok c ∧
      validate_registers ⟨false, some s⟩ 5 = .ok s ∧
      validate_registers ⟨false, some a⟩ 6 = .ok a ∧
      async_get_data true ⟨false, some c⟩ ⟨false, some s⟩ ⟨false, some a⟩ =
        async_get_data true ⟨false, some (c.take 7)⟩ ⟨false, some (s.take 5)⟩
          ⟨false, some (a.take 6)⟩ := by
  intro c s a hc hs ha
  refine ⟨validate_registers_ok hc, validate_registers_ok hs,
    validate_registers_ok ha, ?_⟩
  rw [async_get_data_ok c s a hc hs ha,
    async_get_data_ok (c.take 7) (s.take 5) (a.take 6)
      (by simp [List.length_take]; omega)
      (by simp [List.length_take]; omega)
      (by simp [List.length_take]; omega)]
  simp [getD_take_eq (show (0:Nat) < 7 by decide),
    getD_take_eq (show (1:Nat) < 7 by decide),
    getD_take_eq (show (2:Nat) < 7 by decide),
    getD_take_eq (show (3:Nat) < 7 by decide),
    getD_take_eq (show (4:Nat) < 7 by decide),
    getD_take_eq (show (5:Nat) < 7 by decide),
    getD_take_eq (show (6:Nat) < 7 by decide),
    getD_take_eq (show (0:Nat) < 5 by decide),
    getD_take_eq (show (1:Nat) < 5 by decide),
    getD_take_eq (show (2:Nat) < 5 by decide),
    getD_take_eq (show (3:Nat) < 5 by decide),
    getD_take_eq (show (4:Nat) < 5 by decide),
    getD_take_eq (show (0:Nat) < 6 by decide),
    getD_take_eq (show (1:Nat) < 6 by decide),
    getD_take_eq (show (2:Nat) < 6 by decide),
    getD_take_eq (show (3:Nat) < 6 by decide),
    getD_take_eq (show (4:Nat) < 6 by decide),
    getD_take_eq (show (5:Nat) < 6 by decide)]

theorem c10_witness :
    validate_registers ⟨false, some [1, 0, 60, 10, 80, 2, 1, 77]⟩ 7 =
      .ok [1, 0, 60, 10, 80, 2, 1, 77] ∧
    async_get_data true ⟨false, some [1, 0, 60, 10, 80, 2, 1, 77]⟩
        ⟨false, some [75, 0, 0, 1, 0]⟩ ⟨false, some [0, 0, 0, 0, 0, 0]⟩ =
      async_get_data true ⟨false, some [1, 0, 60, 10, 80, 2, 1]⟩
        ⟨false, some [75, 0, 0, 1, 0]⟩ ⟨false, some [0, 0, 0, 0, 0, 0]⟩ :=
  ⟨(c10_overlong_blocks_tolerated [1, 0, 60, 10, 80, 2, 1, 77] [75, 0, 0, 1, 0]
      [0, 0, 0, 0, 0, 0] (by decide) (by decide) (by decide)).1,
   (c10_overlong_blocks_tolerated [1, 0, 60, 10, 80, 2, 1, 77] [75, 0, 0, 1, 0]
      [0, 0, 0, 0, 0, 0] (by decide) (by decide) (by decide)).2.2.2⟩

end Pysaunum
